import Mathlib

/-!
Shallow embedding of `backend/ai_generator.py` (class `AIGenerator`): the
sequential tool-calling orchestration engine.  The LM client is modelled as
an oracle `client : Nat → Except String Response` giving the outcome of the
n-th `messages.create` call (an `Except.error` models the Python call
raising); the tool manager as a function that may fail, modelling
`execute_tool` raising.  Python exceptions that escape `generate_response`
are modelled by `Except PyError`.  The run also records the requests issued
to the LM and the tool-execution rounds performed, so that properties about
counts, ordering and request shape can be stated.
-/

namespace AIGen

/-- A tool-use content block (`content_block` with `type == "tool_use"`). -/
structure ToolUseBlock where
  id : String
  name : String
  input : List (String × String)
  deriving DecidableEq, Repr

/-- A content block of an LM response: a text block (carries a `text`
attribute) or a tool-use block. -/
inductive ContentBlock where
  | text (value : String)
  | toolUse (b : ToolUseBlock)
  deriving DecidableEq, Repr

/-- An LM response: `stop_reason` and `content`. -/
structure Response where
  stop_reason : String
  content : List ContentBlock
  deriving DecidableEq, Repr

/-- One `tool_result` dict built by `_execute_all_tools`. -/
structure ToolResult where
  type : String
  tool_use_id : String
  content : String
  deriving DecidableEq, Repr

/-- The `content` field of a message dict: a plain string, the assistant's
content blocks, or a list of tool results. -/
inductive MessageContent where
  | str (s : String)
  | blocks (bs : List ContentBlock)
  | results (rs : List ToolResult)
  deriving DecidableEq, Repr

/-- A message dict `\x7brole, content\x7d`. -/
structure Message where
  role : String
  content : MessageContent
  deriving DecidableEq, Repr

/-- A tool schema as listed by `ToolManager.get_tool_definitions()`. -/
structure ToolSchema where
  name : String
  description : String
  input_schema : String
  deriving DecidableEq, Repr

/-- The keyword-argument dicts sent to `client.messages.create`.
`tools = none` models the `tools` key being absent; `tool_choice = some
"auto"` models `\x7b"type": "auto"\x7d`. -/
structure Request where
  model : String
  temperature : Nat
  max_tokens : Nat
  messages : List Message
  system : String
  tools : Option (List ToolSchema)
  tool_choice : Option String
  deriving DecidableEq, Repr

/-- `self.base_params` built in `__init__`. -/
structure BaseParams where
  model : String
  temperature : Nat
  max_tokens : Nat
  deriving DecidableEq, Repr

/-- `\x7b"model": model, "temperature": 0, "max_tokens": 1200\x7d`. -/
def mkBaseParams (model : String) : BaseParams :=
  { model := model, temperature := 0, max_tokens := 1200 }

/-- The tool manager: `execute_tool(name, **kwargs)`; an `Except.error`
models the tool raising. -/
structure ToolManager where
  execute_tool : String → List (String × String) → Except String String

/-- Python exceptions that can escape `generate_response`. -/
inductive PyError where
  | lmRaise (msg : String)
  | indexError
  | attrError
  | noneAttr
  deriving DecidableEq, Repr

/-- `AIGenerator.MAX_TOOL_ROUNDS`. -/
def MAX_TOOL_ROUNDS : Nat := 2

/-- `AIGenerator.SYSTEM_PROMPT` (the static system prompt). -/
def SYSTEM_PROMPT : String := " You are an AI assistant specialized in course materials and educational content with access to comprehensive search and outline tools for course information.\n\nTool Usage Guidelines - Sequential Tool Calling Enabled:\n- **Course outline/structure questions**: ALWAYS use the get_course_outline tool to get complete course information including title, course link, and all lessons with numbers and titles\n- **Course content questions**: ALWAYS use the search_course_content tool first for ANY topic that might be covered in course materials (ML, AI, programming, data science, etc.)\n- **Sequential usage**: You can make up to 2 rounds of tool calls per user query for complex queries\n- **Round 1**: Make your initial search or outline request to gather foundational information\n- **Round 2**: If beneficial, make a follow-up tool call to search for additional details, comparisons, or specific aspects\n- Synthesize tool results into accurate, fact-based responses\n- If tools yield no results, state this clearly without offering alternatives\n\nResponse Protocol:\n- **When in doubt, search first**: If a query could possibly relate to course content, use search_course_content tool\n- **Sequential strategy**: After getting initial results, consider if a follow-up search would add significant value\n- **Course outline questions** (e.g., \"What is the outline of...\", \"What lessons are in...\", \"Course structure...\"): Use get_course_outline tool, then search specific lessons if needed\n- **Comparison queries**: Search each topic/course separately for comprehensive comparisons\n- **Only use general knowledge** for clearly unrelated topics (geography, history, basic facts not covered in courses)\n- **No meta-commentary**:\n - Provide direct answers only â€” no reasoning process, tool explanations, or question-type analysis\n - Do not mention \"based on the search results\" or \"using the outline tool\"\n\nFor Outline Queries:\n- Always include the complete course title, course link (if available), and the full lesson list\n- Format each lesson as: lesson number, lesson title, and lesson link (if available)\n- Present information in a clear, structured format\n\nAll responses must be:\n1. **Brief, Concise and focused** - Get to the point quickly\n2. **Educational** - Maintain instructional value\n3. **Clear** - Use accessible language\n4. **Example-supported** - Include relevant examples when they aid understanding\nProvide only the direct answer to what was asked.\n"

/-- The fixed apology returned when a tool execution round fails. -/
def apologyString : String :=
  "I encountered an error while searching for information. Let me provide what I can from my knowledge."

/-- Fallback of `_extract_text_content` when `not response or not
response.content`. -/
def fallbackEmpty : String := "I apologize, but I couldn't generate a response."

/-- Fallback of `_extract_text_content` when no block carries text. -/
def fallbackNoText : String :=
  "I processed your request but couldn't generate a text response."

/-- The f-string `f"Error in tool execution round \x7bround_count\x7d: \x7bstr(e)\x7d"`. -/
def errorMsgString (round_count : Nat) (e : String) : String :=
  "Error in tool execution round " ++ toString round_count ++ ": " ++ e

/-- `hasattr(content_block, "text")` together with the attribute access:
`some` of the text when the block carries one. -/
def textOf : ContentBlock → Option String
  | .text v => some v
  | .toolUse _ => none

/-- Truthiness of the optional `conversation_history` string (`None` and
`""` are falsy). -/
def strTruthy : Option String → Bool
  | none => false
  | some s => !(s == "")

/-- Truthiness of the optional `tools` list (`None` and `[]` are falsy). -/
def listTruthy {α : Type} : Option (List α) → Bool
  | none => false
  | some l => !l.isEmpty

/-- `_extract_text_content(response)`.  The argument is optional because the
Python code guards with `if not response`. -/
def extractTextContent (response : Option Response) : String :=
  match response with
  | none => fallbackEmpty
  | some r =>
    match r.content with
    | [] => fallbackEmpty
    | first :: _ =>
      match textOf first with
      | some t => t
      | none =>
        match r.content.findSome? textOf with
        | some t => t
        | none => fallbackNoText

/-- `_execute_all_tools(response, tool_manager, round_count)` over
`response.content`: returns the pair the Python function returns
(`tool_results`, success flag) together with the list of tool-use blocks
whose execution was actually attempted, in order.  On the first raising
invocation the remaining blocks are not attempted and `([], False)` is
returned, as in the `except` clause. -/
def executeAllTools (tm : ToolManager) :
    List ContentBlock → List ToolResult × Bool × List ToolUseBlock
  | [] => ([], true, [])
  | .text _ :: rest => executeAllTools tm rest
  | .toolUse b :: rest =>
    match tm.execute_tool b.name b.input with
    | .error _ => ([], false, [b])
    | .ok tool_result =>
      match executeAllTools tm rest with
      | (rs, true, att) =>
        ({ type := "tool_result", tool_use_id := b.id, content := tool_result } :: rs,
          true, b :: att)
      | (_, false, att) => ([], false, b :: att)

/-- The record of one executed tool round inside `_handle_tool_execution`. -/
structure RoundRec where
  response : Response
  attempted : List ToolUseBlock
  results : List ToolResult
  success : Bool
  deriving DecidableEq, Repr

/-- What one engine run produced: the outcome (`Except.error` models an
exception escaping), the number of `messages.create` calls issued, the
requests issued in order, and the executed tool rounds. -/
structure RunOut where
  result : Except PyError String
  lmCalls : Nat
  requests : List Request
  rounds : List RoundRec
  deriving Repr

/-- The `while round_count < self.MAX_TOOL_ROUNDS` loop of
`_handle_tool_execution`.  `fuel` is `MAX_TOOL_ROUNDS - round_count`, `rc`
the current value of `round_count`, `callIdx` the index of the next
`messages.create` call, `msgs` the accumulated `messages` list and `cur`
the variable `current_response` (an `Option` because the Python variable
could in principle hold `None`, in which case reading `stop_reason` would
raise). -/
def toolLoop (client : Nat → Except String Response) (tm : ToolManager)
    (bp : BaseParams) (base : Request) :
    Nat → Nat → Nat → List Message → Option Response → RunOut
  | 0, _, _, _, cur =>
    { result := .ok (extractTextContent cur), lmCalls := 0, requests := [], rounds := [] }
  | fuel + 1, rc, callIdx, msgs, cur =>
    match cur with
    | none => { result := .error .noneAttr, lmCalls := 0, requests := [], rounds := [] }
    | some r =>
      if r.stop_reason != "tool_use" then
        { result := .ok (extractTextContent (some r)), lmCalls := 0,
          requests := [], rounds := [] }
      else
        let msgs1 := msgs ++ [{ role := "assistant", content := .blocks r.content }]
        match executeAllTools tm r.content with
        | (_, false, att) =>
          { result := .ok apologyString, lmCalls := 0, requests := [],
            rounds := [{ response := r, attempted := att, results := [], success := false }] }
        | (tool_results, true, att) =>
          let msgs2 :=
            if tool_results.isEmpty then msgs1
            else msgs1 ++ [{ role := "user", content := .results tool_results }]
          let next : Request :=
            { model := bp.model, temperature := bp.temperature,
              max_tokens := bp.max_tokens, messages := msgs2,
              system := base.system, tools := some (base.tools.getD []),
              tool_choice := if listTruthy base.tools then some "auto" else none }
          match client callIdx with
          | .error e =>
            { result := .ok (match cur with
                | some rr => extractTextContent (some rr)
                | none => errorMsgString (rc + 1) e),
              lmCalls := 1, requests := [next],
              rounds := [{ response := r, attempted := att,
                           results := tool_results, success := true }] }
          | .ok resp =>
            let rest := toolLoop client tm bp base fuel (rc + 1) (callIdx + 1)
              msgs2 (some resp)
            { result := rest.result, lmCalls := 1 + rest.lmCalls,
              requests := next :: rest.requests,
              rounds := { response := r, attempted := att,
                          results := tool_results, success := true } :: rest.rounds }

/-- `_handle_tool_execution(initial_response, base_params, tool_manager)`:
copies the message list and runs the round loop with `round_count = 0` and
`current_response = initial_response`.  `callIdx` is the index of the next
`messages.create` call in the whole run. -/
def handleToolExecution (client : Nat → Except String Response) (tm : ToolManager)
    (bp : BaseParams) (callIdx : Nat) (initial : Response) (base : Request) : RunOut :=
  toolLoop client tm bp base MAX_TOOL_ROUNDS 0 callIdx base.messages (some initial)

/-- `response.content[0].text`: the direct-return expression of
`generate_response`, raising `IndexError` on empty content and an attribute
error when the first block carries no text. -/
def contentZeroText (response : Response) : Except PyError String :=
  match response.content with
  | [] => .error .indexError
  | b :: _ =>
    match textOf b with
    | some t => .ok t
    | none => .error .attrError

/-- The `system_content` built at the top of `generate_response`. -/
def systemContent (conversation_history : Option String) : String :=
  if strTruthy conversation_history then
    SYSTEM_PROMPT ++ "\n\nPrevious conversation:\n" ++ conversation_history.getD ""
  else SYSTEM_PROMPT

/-- `generate_response(query, conversation_history, tools, tool_manager)`;
`bp` is `self.base_params` and `client n` the outcome of the n-th
`self.client.messages.create` call of the run. -/
def generate_response (client : Nat → Except String Response) (bp : BaseParams)
    (query : String) (conversation_history : Option String)
    (tools : Option (List ToolSchema)) (tool_manager : Option ToolManager) : RunOut :=
  let system_content := systemContent conversation_history
  let withTools := listTruthy tools
  let api_params : Request :=
    { model := bp.model, temperature := bp.temperature, max_tokens := bp.max_tokens,
      messages := [{ role := "user", content := .str query }],
      system := system_content,
      tools := if withTools then tools else none,
      tool_choice := if withTools then some "auto" else none }
  match client 0 with
  | .error e =>
    { result := .error (.lmRaise e), lmCalls := 1, requests := [api_params], rounds := [] }
  | .ok response =>
    match tool_manager, response.stop_reason == "tool_use" with
    | some tm, true =>
      let handled := handleToolExecution client tm bp 1 response api_params
      { result := handled.result, lmCalls := 1 + handled.lmCalls,
        requests := api_params :: handled.requests, rounds := handled.rounds }
    | _, _ =>
      { result := contentZeroText response, lmCalls := 1,
        requests := [api_params], rounds := [] }

/-! Concrete fixtures used by witnesses and counterexamples. -/

/-- A concrete tool-use block. -/
def exToolBlock : ToolUseBlock :=
  { id := "tool-1", name := "search_course_content", input := [("query", "X")] }

/-- A concrete tool-requesting response. -/
def exToolResp : Response :=
  { stop_reason := "tool_use", content := [.toolUse exToolBlock] }

/-- A concrete plain-text `end_turn` response. -/
def exEndResp : Response :=
  { stop_reason := "end_turn", content := [.text "Paris is the capital of France."] }

/-- A client whose every response requests tools. -/
def exClientAllTools : Nat → Except String Response := fun _ => .ok exToolResp

/-- A client answering the first call with text. -/
def exClientEnd : Nat → Except String Response := fun _ => .ok exEndResp

/-- A client whose every call raises. -/
def exClientRaise : Nat → Except String Response := fun _ => .error "API Error"

/-- A tool manager whose every execution succeeds. -/
def exTmOK : ToolManager := ⟨fun _ _ => .ok "search result"⟩

/-- A tool manager whose every execution raises `boom`. -/
def exTmBoom : ToolManager := ⟨fun _ _ => .error "boom"⟩

/-- Concrete base parameters. -/
def exBP : BaseParams := mkBaseParams "claude-sonnet-4-20250514"

/-- A concrete tool-schema list. -/
def exSchemas : List ToolSchema :=
  [{ name := "search_course_content", description := "Search course materials",
     input_schema := "object" }]

/-! Helper lemmas about the embedded functions. -/

/-- When every block of `pre` carries no text, the scan finds the text of the
block that follows `pre`. -/
theorem findSome_textOf_first (t : String) (post : List ContentBlock) :
    ∀ pre : List ContentBlock, (∀ b ∈ pre, textOf b = none) →
      (pre ++ ContentBlock.text t :: post).findSome? textOf = some t := by
  intro pre
  induction pre with
  | nil => intro _; simp [List.findSome?, textOf]
  | cons b rest ih =>
    intro h
    have hb : textOf b = none := h b (List.mem_cons_self b rest)
    simp only [List.cons_append, List.findSome?, hb]
    exact ih fun x hx => h x (List.mem_cons_of_mem _ hx)

/-- A successful batch contains an id-matched tool result for every tool-use
block of the response. -/
theorem executeAllTools_ids (tm : ToolManager) :
    ∀ bs rs att, executeAllTools tm bs = (rs, true, att) →
      ∀ b : ToolUseBlock, ContentBlock.toolUse b ∈ bs →
        ∃ tr ∈ rs, tr.tool_use_id = b.id := by
  intro bs
  induction bs with
  | nil => intro rs att _ b hb; cases hb
  | cons c rest ih =>
    intro rs att hexec b hb
    cases c with
    | text v =>
      have hb' : ContentBlock.toolUse b ∈ rest := by
        rcases List.mem_cons.mp hb with h | h
        · exact absurd h (by simp)
        · exact h
      exact ih rs att (by simpa [executeAllTools] using hexec) b hb'
    | toolUse b' =>
      rcases hres : tm.execute_tool b'.name b'.input with e | res
      · simp [executeAllTools, hres] at hexec
      · rcases hrest : executeAllTools tm rest with ⟨rs', flag, att'⟩
        cases flag with
        | false => simp [executeAllTools, hres, hrest] at hexec
        | true =>
          simp only [executeAllTools, hres, hrest, Prod.mk.injEq] at hexec
          obtain ⟨hrs, -, -⟩ := hexec
          rcases List.mem_cons.mp hb with h | h
          · obtain rfl : b = b' := ContentBlock.toolUse.inj h
            refine ⟨{ type := "tool_result", tool_use_id := b.id, content := res }, ?_, rfl⟩
            rw [← hrs]; exact List.mem_cons_self _ _
          · obtain ⟨tr, htr, hid⟩ := ih rs' att' hrest b h
            exact ⟨tr, by rw [← hrs]; exact List.mem_cons_of_mem _ htr, hid⟩

/-- The executor is fail-fast: when the blocks before `b` all succeed and
`b`'s invocation raises, the batch returns `([], False)` and the blocks
after `b` are never attempted. -/
theorem executeAllTools_fail_of_prefix (tm : ToolManager) (b : ToolUseBlock) (err : String)
    (post : List ContentBlock) (hb : tm.execute_tool b.name b.input = .error err) :
    ∀ pre rsp attp, executeAllTools tm pre = (rsp, true, attp) →
      executeAllTools tm (pre ++ ContentBlock.toolUse b :: post) = ([], false, attp ++ [b]) := by
  intro pre
  induction pre with
  | nil =>
    intro rsp attp hpre
    simp only [executeAllTools, Prod.mk.injEq] at hpre
    obtain ⟨-, -, hatt⟩ := hpre
    simp [executeAllTools, hb, ← hatt]
  | cons c rest ih =>
    intro rsp attp hpre
    cases c with
    | text v =>
      simp only [executeAllTools, List.cons_append] at hpre ⊢
      exact ih rsp attp hpre
    | toolUse b' =>
      rcases hres : tm.execute_tool b'.name b'.input with e | res
      · simp [executeAllTools, hres] at hpre
      · rcases hrest : executeAllTools tm rest with ⟨rs', flag, att'⟩
        cases flag with
        | false => simp [executeAllTools, hres, hrest] at hpre
        | true =>
          simp only [executeAllTools, hres, hrest, Prod.mk.injEq] at hpre
          obtain ⟨-, -, hatt⟩ := hpre
          have hihres := ih rs' att' hrest
          simp [List.cons_append, executeAllTools, hres, hihres, ← hatt]

/-- C9 helper: scanning a list where no block carries text finds nothing. -/
theorem findSome_textOf_none :
    ∀ bs : List ContentBlock, (∀ b ∈ bs, textOf b = none) →
      bs.findSome? textOf = none := by
  intro bs
  induction bs with
  | nil => intro _; rfl
  | cons b rest ih =>
    intro h
    simp only [List.findSome?, h b (List.mem_cons_self b rest)]
    exact ih fun x hx => h x (List.mem_cons_of_mem _ hx)

/-- Entered with a present `current_response`, the round loop always returns
a string: every exit path goes through `_extract_text_content`, the apology
string or the local recovery of a failed LM call. -/
theorem toolLoop_some_result_ok (client : Nat → Except String Response) (tm : ToolManager)
    (bp : BaseParams) (base : Request) :
    ∀ fuel rc ci msgs r,
      ∃ s, (toolLoop client tm bp base fuel rc ci msgs (some r)).result = Except.ok s := by
  intro fuel
  induction fuel with
  | zero => intro rc ci msgs r; exact ⟨extractTextContent (some r), rfl⟩
  | succ n ih =>
    intro rc ci msgs r
    by_cases hsr : r.stop_reason = "tool_use"
    · rcases hex : executeAllTools tm r.content with ⟨rs, flag, att⟩
      cases flag with
      | false => exact ⟨apologyString, by simp [toolLoop, hsr, hex]⟩
      | true =>
        rcases hc : client ci with e | resp
        · exact ⟨extractTextContent (some r), by simp [toolLoop, hsr, hex, hc]⟩
        · simp only [toolLoop, hsr, hex, hc]
          simp
          exact ih _ _ _ resp
    · exact ⟨extractTextContent (some r), by simp [toolLoop, hsr]⟩

/-- Every request the round loop issues carries the base request's system
content, its tools list (defaulted to `[]`) and `tool_choice = auto`
whenever the base request had a non-empty tools list. -/
theorem toolLoop_request_fields (client : Nat → Except String Response) (tm : ToolManager)
    (bp : BaseParams) (base : Request) :
    ∀ fuel rc ci msgs cur, ∀ req ∈ (toolLoop client tm bp base fuel rc ci msgs cur).requests,
      req.system = base.system ∧ req.tools = some (base.tools.getD [])
        ∧ req.tool_choice = (if listTruthy base.tools then some "auto" else none) := by
  intro fuel
  induction fuel with
  | zero => intro rc ci msgs cur req hreq; simp [toolLoop] at hreq
  | succ n ih =>
    intro rc ci msgs cur req hreq
    match cur with
    | none => simp [toolLoop] at hreq
    | some r =>
      by_cases hsr : r.stop_reason = "tool_use"
      · rcases hex : executeAllTools tm r.content with ⟨rs, flag, att⟩
        cases flag with
        | false => simp [toolLoop, hsr, hex] at hreq
        | true =>
          rcases hc : client ci with e | resp
          · simp [toolLoop, hsr, hex, hc] at hreq
            subst hreq
            exact ⟨rfl, rfl, rfl⟩
          · simp [toolLoop, hsr, hex, hc] at hreq
            rcases hreq with hreq | hreq
            · subst hreq
              exact ⟨rfl, rfl, rfl⟩
            · exact ih _ _ _ _ req hreq
      · simp [toolLoop, hsr] at hreq

/-- C9: `_extract_text_content` returns the first text-bearing element's
text, checking the head first and then scanning in order; on a `None`
response, empty content or a fully text-free content it returns the fixed
fallback strings; it is a total function, hence never raises. -/
theorem c9_extract_text_content (r : Option Response) :
    (r = none → extractTextContent r = fallbackEmpty)
    ∧ (∀ rr, r = some rr → rr.content = [] → extractTextContent r = fallbackEmpty)
    ∧ (∀ rr pre t post, r = some rr → rr.content = pre ++ ContentBlock.text t :: post →
        (∀ b ∈ pre, textOf b = none) → extractTextContent r = t)
    ∧ (∀ rr, r = some rr → rr.content ≠ [] →
        (∀ b ∈ rr.content, textOf b = none) → extractTextContent r = fallbackNoText) := by
  refine ⟨?_, ?_, ?_, ?_⟩
  · rintro rfl; rfl
  · rintro rr rfl hc; simp [extractTextContent, hc]
  · rintro rr pre t post rfl hc hpre
    cases pre with
    | nil => simp [extractTextContent, hc, textOf]
    | cons b pre' =>
      have hb : textOf b = none := hpre b (List.mem_cons_self b pre')
      have hfind := findSome_textOf_first t post (b :: pre') hpre
      rw [List.cons_append] at hfind
      simp [extractTextContent, hc, hb, hfind]
  · rintro rr rfl hne hall
    match hcc : rr.content, hne with
    | b :: rest, _ =>
      have hb : textOf b = none := hall b (hcc ▸ List.mem_cons_self b rest)
      have hfind : (b :: rest).findSome? textOf = none :=
        findSome_textOf_none (b :: rest) (hcc ▸ hall)
      simp only [extractTextContent, hcc, hb, hfind]

/-- Witness for the C9 theorem at a mixed-content response whose second
element carries the text. -/
theorem c9_witness :
    extractTextContent
      (some (Response.mk "tool_use" [.toolUse exToolBlock, .text "found it"]))
      = "found it" :=
  (c9_extract_text_content _).2.2.1 _ [.toolUse exToolBlock] "found it" [] rfl rfl
    (by intro b hb; simp at hb; subst hb; rfl)

/-- C8: a first response with `stop_reason = end_turn` short-circuits: one
LM call, no tool round, and the first text block is returned verbatim. -/
theorem c8_immediate_end_turn (client : Nat → Except String Response) (bp : BaseParams)
    (query : String) (hist : Option String) (tools : Option (List ToolSchema))
    (tool_manager : Option ToolManager) (r0 : Response) (t : String)
    (rest : List ContentBlock)
    (hc0 : client 0 = .ok r0) (hsr : r0.stop_reason = "end_turn")
    (hcont : r0.content = ContentBlock.text t :: rest) :
    (generate_response client bp query hist tools tool_manager).result = .ok t
    ∧ (generate_response client bp query hist tools tool_manager).lmCalls = 1
    ∧ (generate_response client bp query hist tools tool_manager).rounds = [] := by
  cases tool_manager <;>
    simp [generate_response, hc0, hsr, contentZeroText, hcont, textOf]

/-- Witness for the C8 theorem: the Scenario-B client. -/
theorem c8_witness :
    (generate_response exClientEnd exBP "What is the capital of France?" none
        (some exSchemas) (some exTmOK)).result = .ok "Paris is the capital of France."
    ∧ (generate_response exClientEnd exBP "What is the capital of France?" none
        (some exSchemas) (some exTmOK)).lmCalls = 1
    ∧ (generate_response exClientEnd exBP "What is the capital of France?" none
        (some exSchemas) (some exTmOK)).rounds = [] :=
  c8_immediate_end_turn exClientEnd exBP _ none (some exSchemas) (some exTmOK)
    exEndResp "Paris is the capital of France." [] rfl rfl rfl

/-- C2 counterexample: when the very first LM call raises, the exception
propagates out of `generate_response` (the call at the top of
`generate_response` is not wrapped in try/except), refuting the claim that
the entry point never raises for conditions arising from the LM. -/
theorem c2_counterexample :
    (generate_response exClientRaise exBP "test query" none none none).result
      = .error (.lmRaise "API Error") := rfl

/-- C2 amended: once the first LM call succeeds, failures arising from tool
execution or from later LM calls are recovered locally and a string is
returned; only a raising first LM call, or the toolless return path hitting
a response whose first content element carries no text, lets an exception
escape. -/
theorem c2_amended_no_raise (client : Nat → Except String Response) (bp : BaseParams)
    (query : String) (hist : Option String) (tools : Option (List ToolSchema))
    (tool_manager : Option ToolManager) (r0 : Response)
    (hc0 : client 0 = .ok r0)
    (h : (r0.stop_reason = "tool_use" ∧ tool_manager.isSome)
      ∨ ∃ t, contentZeroText r0 = .ok t) :
    ∃ s, (generate_response client bp query hist tools tool_manager).result = .ok s := by
  cases tool_manager with
  | none =>
    rcases h with ⟨-, hsome⟩ | ⟨t, ht⟩
    · simp at hsome
    · exact ⟨t, by simp [generate_response, hc0, ht]⟩
  | some tm =>
    by_cases hsr : r0.stop_reason = "tool_use"
    · simp only [generate_response, hc0]
      simp [hsr, handleToolExecution]
      exact toolLoop_some_result_ok client tm bp _ MAX_TOOL_ROUNDS 0 1 _ r0
    · rcases h with ⟨hsr', -⟩ | ⟨t, ht⟩
      · exact absurd hsr' hsr
      · exact ⟨t, by simp [generate_response, hc0, hsr, ht]⟩

/-- Witness for the C2 amended theorem at a plain text response. -/
theorem c2_witness :
    ∃ s, (generate_response exClientEnd exBP "q" none none none).result = .ok s :=
  c2_amended_no_raise exClientEnd exBP "q" none none none exEndResp rfl
    (Or.inr ⟨"Paris is the capital of France.", rfl⟩)

/-- C3 counterexample: with `tools` omitted but a tool manager supplied, a
tool-use response does trigger tool execution — two rounds run and the
block is executed in each, refuting that omitting `tools` alone prevents
tool execution. -/
theorem c3_counterexample :
    ((generate_response exClientAllTools exBP "q" none none (some exTmOK)).rounds.map
      fun rd => rd.attempted) = [[exToolBlock], [exToolBlock]] := rfl

/-- C3 amended: the gate on tool handling is `tool_manager`, not `tools`:
when `tool_manager` is omitted no tool execution is ever attempted, whatever
the response's stop reason claims, and the engine returns
`response.content[0].text` (which raises when the first element carries no
text, rather than falling back to `_extract_text_content`). -/
theorem c3_amended_no_tool_manager (client : Nat → Except String Response) (bp : BaseParams)
    (query : String) (hist : Option String) (tools : Option (List ToolSchema)) (r0 : Response)
    (hc0 : client 0 = .ok r0) :
    (generate_response client bp query hist tools none).rounds = []
    ∧ (generate_response client bp query hist tools none).result = contentZeroText r0 := by
  constructor <;> simp [generate_response, hc0]

/-- Witness for the C3 amended theorem: a tool-use response with no tool
manager leads to zero tool rounds. -/
theorem c3_witness :
    (generate_response exClientAllTools exBP "q" none none none).rounds = []
    ∧ (generate_response exClientAllTools exBP "q" none none none).result
      = contentZeroText exToolResp :=
  c3_amended_no_tool_manager exClientAllTools exBP "q" none none exToolResp rfl

/-- A client failing from the second call on. -/
def exClientFailSecond : Nat → Except String Response :=
  fun n => if n == 0 then .ok exToolResp else .error "network down"

/-- A client failing at the third call only. -/
def exClientFailThird : Nat → Except String Response :=
  fun n => if n == 2 then .error "network down" else .ok exToolResp

/-- The tool result `exTmOK` produces for `exToolBlock`. -/
def exToolResult : ToolResult :=
  { type := "tool_result", tool_use_id := "tool-1", content := "search result" }

/-- A concrete base request for handler-level statements. -/
def exBaseReq : Request :=
  { model := "claude-sonnet-4-20250514", temperature := 0, max_tokens := 1200,
    messages := [{ role := "user", content := .str "q" }],
    system := "sys", tools := some exSchemas, tool_choice := some "auto" }

/-- C1 counterexample: when every LM response requests tools (and tool
execution succeeds), the engine issues 3 LM calls in total — the initial
call plus one after each of the two tool rounds — refuting the claim that
at most 2 calls are made to the LM client. -/
theorem c1_counterexample :
    (generate_response exClientAllTools exBP "q" none (some exSchemas)
      (some exTmOK)).lmCalls = 3 := rfl

/-- C1 amended: for every sequence of LM responses that all request tool
use (with tool execution succeeding), exactly `MAX_TOOL_ROUNDS` (2)
tool-execution rounds run and exactly 3 LM calls are issued — the initial
one plus one per round; a third tool-execution round never occurs. -/
theorem c1_amended_bounded_rounds (client : Nat → Except String Response) (bp : BaseParams)
    (query : String) (hist : Option String) (tools : Option (List ToolSchema))
    (tm : ToolManager) (r0 r1 : Response) (rs0 rs1 : List ToolResult)
    (att0 att1 : List ToolUseBlock)
    (hc0 : client 0 = .ok r0) (hsr0 : r0.stop_reason = "tool_use")
    (hex0 : executeAllTools tm r0.content = (rs0, true, att0))
    (hc1 : client 1 = .ok r1) (hsr1 : r1.stop_reason = "tool_use")
    (hex1 : executeAllTools tm r1.content = (rs1, true, att1)) :
    (generate_response client bp query hist tools (some tm)).rounds.length = MAX_TOOL_ROUNDS
    ∧ (generate_response client bp query hist tools (some tm)).lmCalls = 3 := by
  rcases hc2 : client 2 with e | r2 <;>
    constructor <;>
      simp [generate_response, hc0, hsr0, handleToolExecution, MAX_TOOL_ROUNDS, toolLoop,
        hex0, hc1, hsr1, hex1, hc2]

/-- Witness for the C1 amended theorem on the all-tool-use client. -/
theorem c1_witness :
    (generate_response exClientAllTools exBP "q" none (some exSchemas)
        (some exTmOK)).rounds.length = MAX_TOOL_ROUNDS
    ∧ (generate_response exClientAllTools exBP "q" none (some exSchemas)
        (some exTmOK)).lmCalls = 3 :=
  c1_amended_bounded_rounds exClientAllTools exBP "q" none (some exSchemas) exTmOK
    exToolResp exToolResp [exToolResult] [exToolResult] [exToolBlock] [exToolBlock]
    rfl rfl rfl rfl rfl rfl

/-- C4: when an LM call after the first raises, `_handle_tool_execution`
recovers locally and `generate_response` returns the extracted text of the
last successfully obtained response (the initial round always succeeded
before the handler runs); the failure is never raised to the caller. -/
theorem c4_transport_failure_recovery (client : Nat → Except String Response) (bp : BaseParams)
    (query : String) (hist : Option String) (tools : Option (List ToolSchema))
    (tm : ToolManager) (r0 : Response) (rs0 : List ToolResult) (att0 : List ToolUseBlock)
    (e : String)
    (hc0 : client 0 = .ok r0) (hsr0 : r0.stop_reason = "tool_use")
    (hex0 : executeAllTools tm r0.content = (rs0, true, att0))
    (hc1 : client 1 = .error e) :
    (generate_response client bp query hist tools (some tm)).result
      = .ok (extractTextContent (some r0)) := by
  simp [generate_response, hc0, hsr0, handleToolExecution, MAX_TOOL_ROUNDS, toolLoop,
    hex0, hc1]

/-- Witness for the C4 theorem: second call fails, the run still returns a
string extracted from the first response. -/
theorem c4_witness :
    (generate_response exClientFailSecond exBP "q" none (some exSchemas)
        (some exTmOK)).result = .ok (extractTextContent (some exToolResp)) :=
  c4_transport_failure_recovery exClientFailSecond exBP "q" none (some exSchemas) exTmOK
    exToolResp [exToolResult] [exToolBlock] "network down" rfl rfl rfl rfl

/-- C10: `current_response` is non-None whenever the exception handler
around a next-round LM call runs, so the `error_msg` branch is dead: a
failing second-round LM call yields `_extract_text_content` of the previous
(tool-requesting) response, never the formatted error string. -/
theorem c10_error_branch_unreachable (client : Nat → Except String Response)
    (tm : ToolManager) (bp : BaseParams) (callIdx : Nat) (initial r1 : Response)
    (base : Request) (rs0 rs1 : List ToolResult) (att0 att1 : List ToolUseBlock) (e : String)
    (hsr0 : initial.stop_reason = "tool_use")
    (hex0 : executeAllTools tm initial.content = (rs0, true, att0))
    (hc1 : client callIdx = .ok r1) (hsr1 : r1.stop_reason = "tool_use")
    (hex1 : executeAllTools tm r1.content = (rs1, true, att1))
    (hc2 : client (callIdx + 1) = .error e) :
    (handleToolExecution client tm bp callIdx initial base).result
      = .ok (extractTextContent (some r1)) := by
  simp [handleToolExecution, MAX_TOOL_ROUNDS, toolLoop, hsr0, hex0, hc1, hsr1, hex1, hc2]

/-- Witness for the C10 theorem: the third overall call fails and the run
returns the extraction of round two's response. -/
theorem c10_witness :
    (handleToolExecution exClientFailThird exTmOK exBP 1 exToolResp exBaseReq).result
      = .ok (extractTextContent (some exToolResp)) :=
  c10_error_branch_unreachable exClientFailThird exTmOK exBP 1 exToolResp exToolResp
    exBaseReq [exToolResult] [exToolResult] [exToolBlock] [exToolBlock] "network down"
    rfl rfl rfl rfl rfl rfl

/-- C5: a raising tool invocation aborts the remaining calls of its batch
(`_execute_all_tools` returns `([], False)` without attempting the blocks
after the failing one) and `generate_response` returns the fixed apology
string with no further LM request issued. -/
theorem c5_tool_failure_fail_fast (client : Nat → Except String Response) (bp : BaseParams)
    (query : String) (hist : Option String) (tools : Option (List ToolSchema))
    (tm : ToolManager) (pre post : List ContentBlock) (rsp : List ToolResult)
    (attp : List ToolUseBlock) (b : ToolUseBlock) (err : String) (r0 : Response)
    (hb : tm.execute_tool b.name b.input = .error err)
    (hpre : executeAllTools tm pre = (rsp, true, attp))
    (hc0 : client 0 = .ok r0) (hsr0 : r0.stop_reason = "tool_use")
    (hcont : r0.content = pre ++ ContentBlock.toolUse b :: post) :
    executeAllTools tm r0.content = ([], false, attp ++ [b])
    ∧ (generate_response client bp query hist tools (some tm)).result = .ok apologyString
    ∧ (generate_response client bp query hist tools (some tm)).lmCalls = 1 := by
  have hfail := executeAllTools_fail_of_prefix tm b err post hb pre rsp attp hpre
  rw [← hcont] at hfail
  refine ⟨hfail, ?_, ?_⟩ <;>
    simp [generate_response, hc0, hsr0, handleToolExecution, MAX_TOOL_ROUNDS, toolLoop, hfail]

/-- Witness for the C5 theorem: Scenario D, a tool raising `boom` in round
one yields the apology string after a single LM call. -/
theorem c5_witness :
    executeAllTools exTmBoom exToolResp.content = ([], false, [exToolBlock])
    ∧ (generate_response exClientAllTools exBP "q" none (some exSchemas)
        (some exTmBoom)).result = .ok apologyString
    ∧ (generate_response exClientAllTools exBP "q" none (some exSchemas)
        (some exTmBoom)).lmCalls = 1 :=
  c5_tool_failure_fail_fast exClientAllTools exBP "q" none (some exSchemas) exTmBoom
    [] [] [] [] exToolBlock "boom" exToolResp rfl rfl rfl rfl rfl

/-- C6: after a successful round, the single user message holding the
round's tool results is the last message of the request sent for the next
round, and every tool-use block of the round's response has an id-matched
tool result in it.  Stated for both rounds by pinning the exact message
list of the second and third issued requests. -/
theorem c6_tool_results_before_next_round (client : Nat → Except String Response)
    (bp : BaseParams) (query : String) (hist : Option String)
    (tools : Option (List ToolSchema)) (tm : ToolManager) (r0 r1 : Response)
    (rs0 rs1 : List ToolResult) (att0 att1 : List ToolUseBlock)
    (hc0 : client 0 = .ok r0) (hsr0 : r0.stop_reason = "tool_use")
    (hex0 : executeAllTools tm r0.content = (rs0, true, att0)) (hrs0 : rs0 ≠ [])
    (hc1 : client 1 = .ok r1) (hsr1 : r1.stop_reason = "tool_use")
    (hex1 : executeAllTools tm r1.content = (rs1, true, att1)) (hrs1 : rs1 ≠ []) :
    ((generate_response client bp query hist tools (some tm)).requests[1]?.map
        fun req => req.messages)
      = some [Message.mk "user" (.str query), Message.mk "assistant" (.blocks r0.content),
          Message.mk "user" (.results rs0)]
    ∧ (∀ b : ToolUseBlock, ContentBlock.toolUse b ∈ r0.content →
        ∃ tr ∈ rs0, tr.tool_use_id = b.id)
    ∧ ((generate_response client bp query hist tools (some tm)).requests[2]?.map
        fun req => req.messages)
      = some [Message.mk "user" (.str query), Message.mk "assistant" (.blocks r0.content),
          Message.mk "user" (.results rs0), Message.mk "assistant" (.blocks r1.content),
          Message.mk "user" (.results rs1)]
    ∧ (∀ b : ToolUseBlock, ContentBlock.toolUse b ∈ r1.content →
        ∃ tr ∈ rs1, tr.tool_use_id = b.id) := by
  have hE0 : rs0.isEmpty = false := by
    cases rs0
    · exact absurd rfl hrs0
    · rfl
  have hE1 : rs1.isEmpty = false := by
    cases rs1
    · exact absurd rfl hrs1
    · rfl
  refine ⟨?_, executeAllTools_ids tm r0.content rs0 att0 hex0, ?_,
    executeAllTools_ids tm r1.content rs1 att1 hex1⟩ <;>
  rcases hc2 : client 2 with e | r2 <;>
    simp [generate_response, hc0, hsr0, handleToolExecution, MAX_TOOL_ROUNDS, toolLoop,
      hex0, hE0, hc1, hsr1, hex1, hE1, hc2]

/-- Witness for the C6 theorem: the second issued request of the concrete
two-round run ends with the user message holding round one's tool result. -/
theorem c6_witness :
    ((generate_response exClientAllTools exBP "q" none (some exSchemas)
        (some exTmOK)).requests[1]?.map fun req => req.messages)
      = some [Message.mk "user" (.str "q"),
          Message.mk "assistant" (.blocks exToolResp.content),
          Message.mk "user" (.results [exToolResult])] :=
  (c6_tool_results_before_next_round exClientAllTools exBP "q" none (some exSchemas)
    exTmOK exToolResp exToolResp [exToolResult] [exToolResult] [exToolBlock] [exToolBlock]
    rfl rfl rfl (by simp) rfl rfl rfl (by simp)).1

/-- C7: when a non-empty tools list is supplied, every request the run
issues — the first and every later round's — carries the same system
content (the one built from the optional history), the same tools list and
`tool_choice = auto`; and when a non-empty history is supplied that system
content is the static prompt with the history text appended verbatim. -/
theorem c7_request_invariants (client : Nat → Except String Response) (bp : BaseParams)
    (query : String) (hist : Option String) (ts : List ToolSchema)
    (tool_manager : Option ToolManager) (hne : ts ≠ []) :
    (∀ req ∈ (generate_response client bp query hist (some ts) tool_manager).requests,
      req.system = systemContent hist ∧ req.tools = some ts ∧ req.tool_choice = some "auto")
    ∧ (strTruthy hist = true →
      systemContent hist = SYSTEM_PROMPT ++ "\n\nPrevious conversation:\n" ++ hist.getD "") := by
  have hwt : listTruthy (some ts) = true := by
    cases ts
    · exact absurd rfl hne
    · rfl
  constructor
  · intro req hreq
    rcases hc0 : client 0 with e | r0
    · simp [generate_response, hc0, hwt] at hreq
      subst hreq
      exact ⟨rfl, rfl, rfl⟩
    · cases tool_manager with
      | none =>
        simp [generate_response, hc0, hwt] at hreq
        subst hreq
        exact ⟨rfl, rfl, rfl⟩
      | some tm =>
        by_cases hsr : r0.stop_reason = "tool_use"
        · simp [generate_response, hc0, hwt, hsr, handleToolExecution] at hreq
          rcases hreq with hreq | hreq
          · subst hreq
            exact ⟨rfl, rfl, rfl⟩
          · have hfields := toolLoop_request_fields client tm bp _ MAX_TOOL_ROUNDS 0 1 _ _
              req hreq
            simpa [hwt] using hfields
        · simp [generate_response, hc0, hwt, hsr] at hreq
          subst hreq
          exact ⟨rfl, rfl, rfl⟩
  · intro hh
    simp [systemContent, hh]

/-- Witness for the C7 theorem: with history supplied, the system content is
the static prompt followed by the delimited history text. -/
theorem c7_witness :
    systemContent (some "HIST")
      = SYSTEM_PROMPT ++ "\n\nPrevious conversation:\n" ++ "HIST" :=
  (c7_request_invariants exClientEnd exBP "q" (some "HIST") exSchemas (some exTmOK)
    (by decide)).2 rfl

end AIGen
